import Mathlib

/-!
Verification development for the PMM deep-agent repository.

The repository's tools are pure template operations: each one builds a JSON
envelope (an ordered string-keyed object) holding a `task` tag, a rendered
`instructions` text and an echo of (some of) its inputs.  This file embeds
those operations, the pydantic evaluation data model, the scoring enums and
the mode-based tool selector, and proves the spec's claims about them.
-/

set_option maxRecDepth 40000
set_option maxHeartbeats 2000000

/-- JSON values that occur in the tool envelopes: strings, null (Python `None`),
booleans and lists of strings. -/
inductive Jval where
  | str (s : String)
  | null
  | bool (b : Bool)
  | arr (xs : List String)
deriving DecidableEq, Repr

/-- A JSON object as `json.dumps` receives it: an ordered list of key-value pairs. -/
abbrev Env := List (String × Jval)

/-- Lookup of a top-level key in an envelope (first match, as in a Python dict). -/
def lookupKey : Env → String → Option Jval
  | [], _ => none
  | (k, v) :: rest, key => if k == key then some v else lookupKey rest key

/-- Whether an envelope has a top-level key. -/
def hasKey (e : Env) (k : String) : Bool := (lookupKey e k).isSome

/-- The string value stored under a key, when it is a string. -/
def getStr (e : Env) (k : String) : Option String :=
  match lookupKey e k with
  | some (Jval.str s) => some s
  | _ => none

/-- The `instructions` string of an envelope (empty when absent). -/
def getInstr (e : Env) : String := (getStr e "instructions").getD ""

/-- Embedding of Python's `x or default` on an optional string: `None` and the
empty string are falsy, so both fall back to the default. -/
def pyOrStr (v : Option String) (d : String) : String :=
  match v with
  | some s => if s == "" then d else s
  | none => d

/-- Embedding of the f-string fragment `f"<pre>{v}" if v else "<els>"` for an
optional string `v` (Python truthiness: `None` and `""` take the else branch). -/
def pyCondStr (pre : String) (v : Option String) (els : String) : String :=
  match v with
  | some s => if s == "" then els else pre ++ s
  | none => els

/-- Python's `str(...)` rendering of a list of strings, as interpolated by the
f-string templates: elements in single quotes, comma-separated, in brackets.
Faithful for elements without quotes or backslashes (the repr of those would
add escapes; no claim depends on that case). -/
def pyStrListRepr (l : List String) : String :=
  "[" ++ String.intercalate (", ") (l.map fun s => "'" ++ s ++ "'") ++ "]"

/-- Embedding of the f-string fragment `f"<pre>{v}" if v else ""` for an
optional list `v` (Python truthiness: `None` and `[]` take the else branch). -/
def pyCondList (pre : String) (v : Option (List String)) : String :=
  match v with
  | none => ""
  | some [] => ""
  | some l => pre ++ pyStrListRepr l

/-- JSON value of an optional-string parameter: Python `None` serializes as null. -/
def jopt : Option String → Jval
  | some s => Jval.str s
  | none => Jval.null

/-- JSON value of an optional-list parameter: Python `None` serializes as null. -/
def joptList : Option (List String) → Jval
  | some l => Jval.arr l
  | none => Jval.null

/-- The per-issue fix approaches of `generate_rewrite` (the `rewrite_instructions`
dict of the source), as a partial lookup. -/
def rewrite_instructions (issue_type : String) : Option String :=
  if issue_type == "unclear_headline" then some ("Rewrite to clearly state WHAT + WHO. No cleverness.")
  else if issue_type == "jargon_buzzwords" then some ("Replace all jargon with customer language. Be specific.")
  else if issue_type == "feature_dump" then some ("Apply 'So what?' to each feature until you reach benefit.")
  else if issue_type == "no_specificity" then some ("Add numbers, timeframes, concrete outcomes.")
  else if issue_type == "clever_over_clear" then some ("Make it boring and clear. State exactly what it does.")
  else if issue_type == "weak_cta" then some ("Make CTA benefit-oriented. What happens when they click?")
  else if issue_type == "generic_value_prop" then some ("Add problem + specific solution + for whom.")
  else if issue_type == "no_competitive_frame" then some ("Add 'Unlike X' or 'Instead of Y' framing.")
  else none

/-- Instructions text of `run_five_second_test` (transcribed verbatim from the source template). -/
def run_five_second_test_instructions : String :=
  "Analyze this asset and answer:

1. **What do they do?** (clear/partial/unclear)
   - Can you tell what the product/service is within 5 seconds?
   - Quote the text that tells you (or note its absence)

2. **Who is it for?** (clear/partial/unclear)
   - Is the target audience specific or generic?
   - Quote any persona/audience indicators

3. **What makes it different?** (clear/partial/unclear)
   - Is there a unique value proposition?
   - What's the competitive alternative?

4. **What to do next?** (clear/partial/unclear)
   - Is there a clear call-to-action?
   - Is there only ONE primary action?

**Final verdict:** PASS (3-4 clear), PARTIAL (1-2 clear), FAIL (0 clear)

Provide specific evidence for each answer."

/-- Envelope returned by `run_five_second_test`: the JSON object it serializes, as an ordered key-value list. -/
def run_five_second_test (asset_content : String) (asset_type : String) : Env :=
  [("task", Jval.str ("five_second_test")),
   ("instructions", Jval.str (run_five_second_test_instructions)),
   ("asset_content", Jval.str asset_content),
   ("asset_type", Jval.str asset_type)]

/-- Instructions text of `analyze_positioning` (transcribed verbatim from the source template). -/
def analyze_positioning_instructions : String :=
  "Analyze positioning using the Positioning Canvas:

## 1. TARGET CUSTOMER
- Role/Title: (identified or missing?)
- Company Type: (B2B, B2C, size, stage?)
- Industry: (specific or \"everyone\"?)
- Situation/Trigger: (what makes them buy now?)
- **Specificity Score (0-100):** How narrow is the targeting?

## 2. COMPETITIVE ALTERNATIVE
- Type: (direct competitor / manual process / status quo / homegrown)
- Named Alternative: (explicit or implied?)
- Is there a \"unlike X\" or \"instead of Y\"?
- **Frame Score (0-100):** How clear is what they replace?

## 3. DIFFERENTIATION
- Unique Approach: (what do they do differently?)
- Key Capability: (what can they do that others can't?)
- Is it defensible? (hard to copy)
- Is it meaningful? (customers care)
- Could competitor say the same thing?
- **Differentiation Score (0-100)**

## 4. PROBLEM/PAIN
- Is there a specific problem stated?
- Is it the customer's problem or the company's narrative?
- Is it specific or generic (\"increase revenue\")?
- **Problem Clarity Score (0-100)**

## ANTI-PATTERNS DETECTED
- [ ] Refusing to Pigeonhole (serving everyone)
- [ ] Positioning on Outcomes Only (grow revenue)
- [ ] Platform Before Point Solution
- [ ] No Competitive Frame

## OVERALL POSITIONING SCORE (0-100)
- Weighted average of components
- List top 3 strengths
- List top 3 weaknesses"

/-- Envelope returned by `analyze_positioning`: the JSON object it serializes, as an ordered key-value list. -/
def analyze_positioning (asset_content : String) (company_context : Option String) : Env :=
  [("task", Jval.str ("positioning_analysis")),
   ("instructions", Jval.str (analyze_positioning_instructions)),
   ("asset_content", Jval.str asset_content),
   ("company_context", jopt company_context)]

/-- Instructions text of `analyze_messaging` (transcribed verbatim from the source template). -/
def analyze_messaging_instructions : String :=
  "Analyze messaging using the 5-layer hierarchy:

## LAYER 1: POSITIONING STATEMENT
- Can you infer: \"For [target] who [situation], [product] is a [category] that [benefit]. Unlike [alternative], we [differentiator]\"?
- Score (0-100):

## LAYER 2: VALUE PROPOSITION
- Is there a clear value prop in the hero?
- Components present: Capability / Audience / Benefit / Differentiator
- Quote the value proposition if present
- Score (0-100):

## LAYER 3: KEY MESSAGES (Pillars)
- How many key messages/pillars?
- Are they benefit-oriented or feature lists?
- Quote each pillar
- Score (0-100):

## LAYER 4: PROOF POINTS
- Customer quotes present?
- Metrics/results with numbers?
- Logos present?
- Awards/recognition?
- Score (0-100):

## LAYER 5: MICRO-COPY
- CTA button text (benefit-oriented?)
- Headlines (clear or clever?)
- Consistent terminology?
- Score (0-100):

## MESSAGING HOUSE ASSESSMENT
```
Value Prop: [quote]
├── Pillar 1: [quote]
├── Pillar 2: [quote]
├── Pillar 3: [quote]
└── Foundation: [target audience]
```

## CLARITY TESTS
- **5-Second Clarity (0-100):** Immediate understanding?
- **Specificity (0-100):** Numbers, metrics, concrete outcomes?
- **Benefit-Orientation (0-100):** Features → benefits?

## ANTI-PATTERNS DETECTED
- [ ] Feature Dumping
- [ ] Jargon/Buzzwords (list them)
- [ ] Clever Over Clear
- [ ] Saying Everything
- [ ] No Specificity

## OVERALL MESSAGING SCORE (0-100)"

/-- Envelope returned by `analyze_messaging`: the JSON object it serializes, as an ordered key-value list. -/
def analyze_messaging (asset_content : String) (target_persona : Option String) : Env :=
  [("task", Jval.str ("messaging_analysis")),
   ("instructions", Jval.str (analyze_messaging_instructions)),
   ("asset_content", Jval.str asset_content),
   ("target_persona", jopt target_persona)]

/-- Instructions text of `analyze_homepage_structure` (transcribed verbatim from the source template). -/
def analyze_homepage_structure_instructions : String :=
  "Analyze homepage structure:

## HERO SECTION
- **Headline:** Quote it. Is it clear or clever?
- **Subheadline:** Does it support or repeat?
- **Primary CTA:** Text and placement
- **Social Proof in Hero:** Logos visible?
- **Headline Clarity Score (0-100)**
- **CTA Clarity Score (0-100)**

## INFORMATION HIERARCHY
- What's above the fold?
- Is most important info first?
- Is the page scannable?
- Score (0-100):

## CTA STRATEGY
- Count of CTAs above fold:
- Primary CTA obvious? (yes/no)
- Secondary path for not-ready visitors?
- **Too many CTAs?** (>3 = problem)

## SOCIAL PROOF
- Logos present? Recognizable?
- Testimonials present? Names/titles included?
- Metrics present? Specific results?
- Score (0-100):

## ANTI-PATTERNS DETECTED
- [ ] Unclear Hero
- [ ] Too Many CTAs
- [ ] Missing Social Proof
- [ ] Wall of Text
- [ ] Stock Photos

## SECTION-BY-SECTION BREAKDOWN
List each section with:
- Purpose
- Effectiveness (0-100)
- Issues

## OVERALL HOMEPAGE SCORE (0-100)"

/-- Envelope returned by `analyze_homepage_structure`: the JSON object it serializes, as an ordered key-value list. -/
def analyze_homepage_structure (asset_content : String) (include_screenshots : Bool) : Env :=
  [("task", Jval.str ("homepage_structure_analysis")),
   ("instructions", Jval.str (analyze_homepage_structure_instructions)),
   ("asset_content", Jval.str asset_content),
   ("include_screenshots", Jval.bool include_screenshots)]

/-- Instructions text of `detect_anti_patterns` (transcribed verbatim from the source template). -/
def detect_anti_patterns_instructions : String :=
  "Scan for PMM anti-patterns:

## CRITICAL (Must Fix Immediately)

### 1. Refusing to Pigeonhole
- [ ] DETECTED? Evidence:
- Specific text:
- Impact:
- Fix:

### 2. Positioning on Outcomes Only
- [ ] DETECTED? Evidence:
- Specific text:
- Impact:
- Fix:

### 3. No Competitive Frame
- [ ] DETECTED? Evidence:
- Missing elements:
- Fix:

### 4. Unclear Hero (if homepage)
- [ ] DETECTED? Evidence:
- Specific text:
- Fix:

## HIGH PRIORITY (Should Fix)

### 5. Feature Dumping
- [ ] DETECTED?
- Feature list without benefits:
- Fix: \"So what?\" translation

### 6. Jargon/Buzzwords
- [ ] DETECTED?
- List all buzzwords found:
- Plain English alternatives:

### 7. Clever Over Clear
- [ ] DETECTED?
- Clever phrase:
- Clear alternative:

### 8. Too Many CTAs (if homepage)
- [ ] DETECTED?
- Count:
- Primary should be:

### 9. Missing Social Proof
- [ ] DETECTED?
- What's missing:
- Recommendation:

### 10. No Specificity
- [ ] DETECTED?
- Generic claims:
- Specific alternatives:

## MEDIUM PRIORITY

### 11. Platform Before Point Solution
- [ ] DETECTED?

### 12. Saying Everything
- [ ] DETECTED?
- Count of use cases/features:

### 13. Too Broad ICP
- [ ] DETECTED?

### 14. Wall of Text
- [ ] DETECTED?

## SUMMARY
- Critical issues: [count]
- High priority: [count]
- Medium: [count]
- Top 3 to fix first:"

/-- Envelope returned by `detect_anti_patterns`: the JSON object it serializes, as an ordered key-value list. -/
def detect_anti_patterns (asset_content : String) (asset_type : String) : Env :=
  [("task", Jval.str ("anti_pattern_detection")),
   ("instructions", Jval.str (detect_anti_patterns_instructions)),
   ("asset_content", Jval.str asset_content),
   ("asset_type", Jval.str asset_type)]

/-- Instructions text of `generate_rewrite` (transcribed verbatim from the source template). -/
def generate_rewrite_instructions (original_copy : String) (issue_type : String) (target_persona : Option String) (competitive_alternative : Option String) : String :=
  "Rewrite this copy to fix: "
    ++ (issue_type)
    ++ "

**Original:**
"
    ++ (original_copy)
    ++ "

**Issue:** "
    ++ (issue_type)
    ++ "
**Fix approach:** "
    ++ ((rewrite_instructions issue_type).getD ("Improve clarity and specificity"))
    ++ "

**Target persona:** "
    ++ (pyOrStr target_persona ("Not specified"))
    ++ "
**Competitive alternative:** "
    ++ (pyOrStr competitive_alternative ("Not specified"))
    ++ "

Provide:
1. **Analysis:** Why the original fails
2. **Rewrite Option 1:** Conservative improvement
3. **Rewrite Option 2:** Bold improvement
4. **Rewrite Option 3:** If persona specified, persona-specific version
5. **Why these work:** Explanation of improvements"

/-- Envelope returned by `generate_rewrite`: the JSON object it serializes, as an ordered key-value list. -/
def generate_rewrite (original_copy : String) (issue_type : String) (target_persona : Option String) (competitive_alternative : Option String) : Env :=
  [("task", Jval.str ("copy_rewrite")),
   ("instructions", Jval.str (generate_rewrite_instructions original_copy issue_type target_persona competitive_alternative)),
   ("original_copy", Jval.str original_copy),
   ("issue_type", Jval.str issue_type)]

/-- Instructions text of `build_competitive_frame` (transcribed verbatim from the source template). -/
def build_competitive_frame_instructions : String :=
  "Build competitive frame:

## COMPETITIVE ALTERNATIVES ANALYSIS

### Option 1: Direct Competitor
- Who is the most obvious competitor?
- What's their weakness?
- Frame: \"Unlike [competitor], we...\"

### Option 2: Manual Process
- What do people do without this product?
- What's painful about it?
- Frame: \"Instead of [manual process], you can...\"

### Option 3: Status Quo
- What happens if they do nothing?
- What's the cost of inaction?
- Frame: \"Stop [painful status quo]. Start...\"

### Option 4: Homegrown Solution
- Do teams build this internally?
- Why does that fail?
- Frame: \"Replace your [homegrown solution] with...\"

## RECOMMENDED FRAME
- Primary alternative:
- Why this frame:
- Positioning statement using this frame:

## DIFFERENTIATION STATEMENTS
Generate 3 \"Unlike X, we Y\" statements:
1.
2.
3.

## VALIDATION QUESTIONS
To validate this frame, ask customers:
1.
2.
3."

/-- Envelope returned by `build_competitive_frame`: the JSON object it serializes, as an ordered key-value list. -/
def build_competitive_frame (product_description : String) (known_competitors : Option (List String)) (current_positioning : Option String) : Env :=
  [("task", Jval.str ("competitive_frame_building")),
   ("instructions", Jval.str (build_competitive_frame_instructions)),
   ("product_description", Jval.str product_description),
   ("known_competitors", joptList known_competitors),
   ("current_positioning", jopt current_positioning)]

/-- Instructions text of `analyze_icp` (transcribed verbatim from the source template). -/
def analyze_icp_instructions : String :=
  "Analyze ICP definition:

## FIRMOGRAPHICS IDENTIFIED
- Company Size: (specific or \"all sizes\"?)
- Industry: (specific or \"any industry\"?)
- Geography: (specific or global?)
- Tech Stack: (mentioned or not?)
- Specificity Score (0-100):

## SITUATION/TRIGGER
- What triggers the buy? (identified or missing?)
- Is there urgency? (why now?)
- Score (0-100):

## PAIN POINTS
- Specific pain identified?
- Cost of not solving?
- Score (0-100):

## PERSONA CLARITY
- Role/title specific?
- Buyer vs. user distinction?
- How many personas implied?
- Score (0-100):

## ANTI-PATTERNS
- [ ] Too Broad ICP
- [ ] Aspirational ICP (dream vs. actual customers)
- [ ] Demographic-Only (no situation/trigger)
- [ ] Too Many Personas

## INFERRED ICP
Based on the asset, the implied ICP is:
- Role:
- Company:
- Situation:
- Pain:

## RECOMMENDATIONS
- Is this specific enough to execute?
- What should be narrowed?
- What's missing?

## ICP CLARITY SCORE (0-100)"

/-- Envelope returned by `analyze_icp`: the JSON object it serializes, as an ordered key-value list. -/
def analyze_icp (asset_content : String) (additional_context : Option String) : Env :=
  [("task", Jval.str ("icp_analysis")),
   ("instructions", Jval.str (analyze_icp_instructions)),
   ("asset_content", Jval.str asset_content),
   ("additional_context", jopt additional_context)]

/-- Instructions text of `run_complete_pmm_audit` (transcribed verbatim from the source template). -/
def run_complete_pmm_audit_instructions : String :=
  "Run complete PMM audit:

# PMM AUDIT REPORT

## EXECUTIVE SUMMARY
(2-3 sentences on overall state)

## 1. 5-SECOND TEST
- What they do: clear/partial/unclear
- Who it's for: clear/partial/unclear
- What's different: clear/partial/unclear
- What to do next: clear/partial/unclear
- **VERDICT:** PASS/PARTIAL/FAIL

## 2. POSITIONING ANALYSIS
| Element | Score | Notes |
|---------|-------|-------|
| Competitive Frame | /100 | |
| Target Audience | /100 | |
| Differentiation | /100 | |
| Problem Clarity | /100 | |
| **OVERALL** | /100 | |

## 3. MESSAGING ANALYSIS
| Layer | Present | Score | Issues |
|-------|---------|-------|--------|
| Positioning Statement | Y/N | /100 | |
| Value Proposition | Y/N | /100 | |
| Key Messages | Y/N | /100 | |
| Proof Points | Y/N | /100 | |
| Micro-Copy | Y/N | /100 | |
| **OVERALL** | | /100 | |

## 4. HOMEPAGE STRUCTURE (if applicable)
| Element | Score | Issues |
|---------|-------|--------|
| Hero Clarity | /100 | |
| CTA Strategy | /100 | |
| Social Proof | /100 | |
| Information Hierarchy | /100 | |
| **OVERALL** | /100 | |

## 5. ANTI-PATTERNS DETECTED
### Critical (Must Fix)
1.
2.

### High Priority (Should Fix)
1.
2.

### Medium (Consider)
1.

## 6. ICP CLARITY
- Specificity Score: /100
- Issues:

## PRIORITIZED ISSUES

### Critical (Fix This Week)
| Issue | Location | Impact | Recommendation |
|-------|----------|--------|----------------|
| | | | |

### High Priority (Fix This Month)
| Issue | Location | Impact | Recommendation |
|-------|----------|--------|----------------|
| | | | |

### Nice to Have
| Issue | Location | Impact | Recommendation |
|-------|----------|--------|----------------|
| | | | |

## WHAT'S WORKING
1.
2.
3.

## KEY REWRITES NEEDED

**Current:** \"...\"
**Suggested:** \"...\"
**Why:** ...

(Repeat for top 3 copy issues)

## OVERALL SCORES
| Dimension | Score |
|-----------|-------|
| Positioning | /100 |
| Messaging | /100 |
| Homepage UX | /100 |
| ICP Clarity | /100 |
| **OVERALL PMM SCORE** | /100 |

## READY TO SHIP?
[ ] YES - Minor polish only
[ ] NEEDS WORK - Significant improvements needed
[ ] NO - Critical issues must be addressed

## NEXT STEPS
1.
2.
3."

/-- Envelope returned by `run_complete_pmm_audit`: the JSON object it serializes, as an ordered key-value list. -/
def run_complete_pmm_audit (asset_content : String) (asset_type : String) (asset_url : Option String) (company_context : Option String) : Env :=
  [("task", Jval.str ("complete_pmm_audit")),
   ("instructions", Jval.str (run_complete_pmm_audit_instructions)),
   ("asset_content", Jval.str asset_content),
   ("asset_type", Jval.str asset_type),
   ("asset_url", jopt asset_url),
   ("company_context", jopt company_context)]

/-- Instructions text of `fetch_homepage` (transcribed verbatim from the source template). -/
def fetch_homepage_instructions (url : String) (extract_mode : String) : String :=
  "Fetch and analyze the homepage at: "
    ++ (url)
    ++ "

Extract and structure:

## HERO SECTION
- Headline (exact text)
- Subheadline (exact text)
- Primary CTA (button text)
- Secondary CTA (if present)
- Logo/brand name
- Navigation items
- Social proof in hero (logos, stats)

## ABOVE THE FOLD
- All visible text without scrolling
- Visual elements described
- Layout structure

## FULL PAGE SECTIONS (in order)
For each section:
- Section name/purpose
- Headline
- Key copy
- CTAs
- Social proof elements

## SOCIAL PROOF INVENTORY
- Logo bar: [list companies]
- Testimonials: [quote, name, title, company]
- Metrics: [specific numbers claimed]
- Case studies: [titles/summaries]
- Awards/badges: [list]

## CTA INVENTORY
List every CTA on the page:
- Text | Location | Primary/Secondary

## META INFORMATION
- Page title
- Meta description
- Open Graph tags (if visible)

Extract mode: "
    ++ (extract_mode)

/-- Envelope returned by `fetch_homepage`: the JSON object it serializes, as an ordered key-value list. -/
def fetch_homepage (url : String) (extract_mode : String) : Env :=
  [("task", Jval.str ("fetch_homepage")),
   ("instructions", Jval.str (fetch_homepage_instructions url extract_mode)),
   ("url", Jval.str url),
   ("extract_mode", Jval.str extract_mode)]

/-- Instructions text of `fetch_competitor_homepage` (transcribed verbatim from the source template). -/
def fetch_competitor_homepage_instructions (competitor_url : String) (your_url : Option String) : String :=
  "Analyze competitor homepage: "
    ++ (competitor_url)
    ++ "

## COMPETITOR POSITIONING
- What do they claim to do?
- Who do they target?
- What's their key differentiator?
- What category do they claim?

## COMPETITOR MESSAGING
- Value proposition (hero)
- Key message pillars
- Proof points used
- CTA strategy

## COMPETITOR WEAKNESSES
- What's unclear?
- What's missing?
- What's overpromised?
- Where are they vulnerable?

## DIFFERENTIATION OPPORTUNITIES
Based on their positioning, you could:
1. Own a different segment
2. Solve a different problem
3. Use a different approach
4. Claim a different attribute

## COMPETITIVE FRAME SUGGESTIONS
\"Unlike [competitor], we...\"
1.
2.
3.

"
    ++ (pyCondStr ("Compare against your site: ") your_url (""))

/-- Envelope returned by `fetch_competitor_homepage`: the JSON object it serializes, as an ordered key-value list. -/
def fetch_competitor_homepage (competitor_url : String) (your_url : Option String) : Env :=
  [("task", Jval.str ("competitor_analysis")),
   ("instructions", Jval.str (fetch_competitor_homepage_instructions competitor_url your_url)),
   ("competitor_url", Jval.str competitor_url),
   ("your_url", jopt your_url)]

/-- Instructions text of `analyze_landing_page` (transcribed verbatim from the source template). -/
def analyze_landing_page_instructions (url : String) (campaign_context : Option String) : String :=
  "Analyze landing page: "
    ++ (url)
    ++ "

## MESSAGE MATCH
- Does the headline match the likely ad/source?
- Is there message continuity?
- Score (0-100):

## SINGLE FOCUS
- Is there ONE clear offer?
- Are there distracting navigation/links?
- Score (0-100):

## VALUE PROPOSITION
- Is the value clear above fold?
- Is it specific to this offer?
- Score (0-100):

## FORM ANALYSIS (if present)
- Number of fields:
- Friction level:
- Value exchange clear?

## TRUST ELEMENTS
- Social proof present?
- Security indicators?
- Testimonials specific to offer?

## CTA ANALYSIS
- Primary CTA text:
- Is it benefit-oriented?
- Is there urgency/scarcity?
- Contrast and visibility?

## MOBILE CONSIDERATIONS
- Likely mobile-friendly?
- Key content above fold on mobile?

## CONVERSION BLOCKERS
List anything that might prevent conversion:
1.
2.
3.

## RECOMMENDATIONS
Priority fixes:
1.
2.
3.

"
    ++ (pyCondStr ("Campaign context: ") campaign_context (""))

/-- Envelope returned by `analyze_landing_page`: the JSON object it serializes, as an ordered key-value list. -/
def analyze_landing_page (url : String) (campaign_context : Option String) : Env :=
  [("task", Jval.str ("landing_page_analysis")),
   ("instructions", Jval.str (analyze_landing_page_instructions url campaign_context)),
   ("url", Jval.str url),
   ("campaign_context", jopt campaign_context)]

/-- Instructions text of `scrape_social_proof` (transcribed verbatim from the source template). -/
def scrape_social_proof_instructions (url : String) : String :=
  "Extract all social proof from: "
    ++ (url)
    ++ "

## LOGO BAR
- Companies shown: [list all]
- Recognizable to target? (yes/partial/no)
- Placement on page:

## TESTIMONIALS
For each testimonial:
| Quote | Name | Title | Company | Specific Result? |
|-------|------|-------|---------|------------------|
| | | | | |

## METRICS/STATS
| Claim | Specific? | Believable? |
|-------|-----------|-------------|
| | | |

## CASE STUDIES
- Titles:
- Specific outcomes mentioned:
- Named companies:

## AWARDS/RECOGNITION
- Badges shown:
- Publications mentioned:
- Certifications:

## SOCIAL PROOF ASSESSMENT

### Strengths
- What's working well?

### Gaps
- What's missing?
- What would strengthen trust?

### Recommendations
1.
2.
3.

## SOCIAL PROOF SCORE (0-100)
- Quantity:
- Quality:
- Specificity:
- Relevance:
- **Overall:**"

/-- Envelope returned by `scrape_social_proof`: the JSON object it serializes, as an ordered key-value list. -/
def scrape_social_proof (url : String) : Env :=
  [("task", Jval.str ("social_proof_inventory")),
   ("instructions", Jval.str (scrape_social_proof_instructions url)),
   ("url", Jval.str url)]

/-- Instructions text of `create_positioning_canvas` (transcribed verbatim from the source template). -/
def create_positioning_canvas_instructions (product_description : String) (target_audience : Option String) (known_competitors : Option (List String)) (unique_capabilities : Option (List String)) : String :=
  "Create positioning canvas:

# POSITIONING CANVAS

## 1. TARGET CUSTOMER

**Role/Title:**
(Be specific - \"Marketing Directors at B2B SaaS companies\" not \"marketers\")

**Company Type:**
(B2B/B2C, size, stage, characteristics)

**Industry:**
(Specific vertical or \"horizontal with focus on X\")

**Situation/Trigger:**
(What event makes them look for this solution?)

**Validation:** Is this specific enough that you could build a target list?

---

## 2. COMPETITIVE ALTERNATIVE

**Primary Alternative:**
(What do they do today without your product?)

**Type:**
[ ] Direct Competitor: ___
[ ] Manual Process: ___
[ ] Status Quo: ___
[ ] Homegrown Solution: ___

---

## 3. WHY THAT SUCKS

**Pain Point 1:**
(Most urgent pain)

**Pain Point 2:**
(Second most important)

**Pain Point 3:**
(Supporting pain)

---

## 4. YOUR UNIQUE APPROACH

**Key Differentiator:**
(What do you do fundamentally differently?)

**Methodology/Approach:**
(How do you solve it differently?)

**Unique Capability:**
(What can you do that alternatives can't?)

---

## 5. WHY THAT'S BETTER

**Primary Benefit:**
(The main outcome customers get)

**Supporting Benefit:**
(Secondary value)

**Proof Point:**
(Evidence this is true)

---

## 6. POSITIONING STRATEGY

**Approach:**
[ ] Category-Based: Competing within ___
[ ] Use-Case-Based: Best for ___

---

## 7. POSITIONING STATEMENTS

**Internal Positioning Statement:**
\"For [target customer] who [situation], [product] is a [category] that [key benefit]. Unlike [competitive alternative], we [key differentiator].\"

**Differentiation Summary:**
\"Unlike [competitive alternative], which [problem with alternative], [product] [unique approach] so that [target customer] can [key benefit].\"

**Homepage One-Liner:**
\"[Product]: The [category/approach] for [audience]\"

---

## VALIDATION CHECKLIST

- [ ] Competitive alternative is clearly defined
- [ ] Target customer is specific (not \"everyone\")
- [ ] Differentiation is meaningful (customers care)
- [ ] Differentiation is defensible (hard to copy)
- [ ] Problem/pain is explicit
- [ ] Could NOT be said by any competitor

Product: "
    ++ (product_description)
    ++ "
"
    ++ (pyCondStr ("Target: ") target_audience (""))
    ++ "
"
    ++ (pyCondList ("Competitors: ") known_competitors)
    ++ "
"
    ++ (pyCondList ("Unique capabilities: ") unique_capabilities)

/-- Envelope returned by `create_positioning_canvas`: the JSON object it serializes, as an ordered key-value list. -/
def create_positioning_canvas (product_description : String) (target_audience : Option String) (known_competitors : Option (List String)) (unique_capabilities : Option (List String)) : Env :=
  [("task", Jval.str ("create_positioning_canvas")),
   ("instructions", Jval.str (create_positioning_canvas_instructions product_description target_audience known_competitors unique_capabilities)),
   ("product_description", Jval.str product_description),
   ("target_audience", jopt target_audience),
   ("known_competitors", joptList known_competitors),
   ("unique_capabilities", joptList unique_capabilities)]

/-- Instructions text of `create_messaging_framework` (transcribed verbatim from the source template). -/
def create_messaging_framework_instructions (positioning_canvas : String) (primary_persona : Option String) (secondary_personas : Option (List String)) : String :=
  "Create messaging framework:

# MESSAGING FRAMEWORK

## VALUE PROPOSITION
(Top of the messaging house - what you do + why it matters)

**Format:** [Product] helps [audience] [achieve outcome] by [unique approach].

**Value Prop:**


---

## MESSAGING HOUSE

```
┌─────────────────────────────────────────────────────┐
│              VALUE PROPOSITION                       │
│  [Write the value prop here]                        │
├─────────────────┬─────────────────┬─────────────────┤
│    PILLAR 1     │    PILLAR 2     │    PILLAR 3     │
│  [Main diff]    │  [Core benefit] │  [Trust/ease]   │
├─────────────────┼─────────────────┼─────────────────┤
│  • Proof 1      │  • Proof 1      │  • Proof 1      │
│  • Proof 2      │  • Proof 2      │  • Proof 2      │
│  • Proof 3      │  • Proof 3      │  • Proof 3      │
├─────────────────┴─────────────────┴─────────────────┤
│  FOUNDATION: [Target audience] + [Competitive alt]  │
└─────────────────────────────────────────────────────┘
```

---

## PILLAR 1: [Primary Differentiation]

**Key Message:**
(Benefit-oriented statement about your main differentiator)

**Supporting Points:**
1.
2.
3.

**Proof Points:**
- Metric:
- Testimonial:
- Case study:

---

## PILLAR 2: [Core Capability Benefit]

**Key Message:**


**Supporting Points:**
1.
2.
3.

**Proof Points:**
- Metric:
- Testimonial:
- Case study:

---

## PILLAR 3: [Trust/Ease/Speed]

**Key Message:**


**Supporting Points:**
1.
2.
3.

**Proof Points:**
- Metric:
- Testimonial:
- Case study:

---

## PERSONA-SPECIFIC MESSAGING

"
    ++ (pyCondStr ("### Primary Persona: ") primary_persona ("### Primary Persona"))
    ++ "

| Aspect | Message |
|--------|---------|
| Pain Point | |
| Desired Outcome | |
| Key Message | |
| Proof Point | |
| Likely Objection | |
| Objection Response | |

"
    ++ (pyCondList ("### Secondary Personas: ") secondary_personas)
    ++ "

---

## HEADLINE OPTIONS

**Problem-led:**
1.
2.

**Solution-led:**
1.
2.

**Outcome-led:**
1.
2.

**Differentiation-led:**
1.
2.

---

## CTA OPTIONS

**Primary CTA (high intent):**
1.
2.

**Secondary CTA (low intent):**
1.
2.

---

## ELEVATOR PITCH

**30-second version:**


**10-second version:**


Positioning: "
    ++ (positioning_canvas)

/-- Envelope returned by `create_messaging_framework`: the JSON object it serializes, as an ordered key-value list. -/
def create_messaging_framework (positioning_canvas : String) (primary_persona : Option String) (secondary_personas : Option (List String)) : Env :=
  [("task", Jval.str ("create_messaging_framework")),
   ("instructions", Jval.str (create_messaging_framework_instructions positioning_canvas primary_persona secondary_personas)),
   ("positioning_canvas", Jval.str positioning_canvas),
   ("primary_persona", jopt primary_persona),
   ("secondary_personas", joptList secondary_personas)]

/-- Instructions text of `create_homepage_wireframe` (transcribed verbatim from the source template). -/
def create_homepage_wireframe_instructions (messaging_framework : String) (style : String) : String :=
  "Create homepage wireframe:

# HOMEPAGE WIREFRAME

## SECTION 1: HERO

**Headline:**
(Clear, not clever. What you do + who for.)

**Subheadline:**
(Supports headline. Adds context, doesn't repeat.)

**Primary CTA:**
(Benefit-oriented. What happens when they click?)

**Secondary CTA:**
(For not-ready visitors. Lower commitment.)

**Social Proof in Hero:**
(Logo bar or key metric)

---

## SECTION 2: SOCIAL PROOF BAR

**Logos to include:**
(5-7 recognizable logos for target audience)

**Alternative if no logos:**
(Key metric or testimonial snippet)

---

## SECTION 3: PROBLEM/PAIN

**Headline:**
(Agitate the problem they have)

**Pain points:**
1.
2.
3.

---

## SECTION 4: SOLUTION/HOW IT WORKS

**Headline:**
(How you solve it)

**3 Steps or Features:**

| Step | Headline | Description |
|------|----------|-------------|
| 1 | | |
| 2 | | |
| 3 | | |

---

## SECTION 5: KEY BENEFITS (Pillars)

**Section Headline:**

**Benefit 1:**
- Headline:
- Description:
- Proof point:

**Benefit 2:**
- Headline:
- Description:
- Proof point:

**Benefit 3:**
- Headline:
- Description:
- Proof point:

---

## SECTION 6: SOCIAL PROOF DEEP

**Testimonial 1:**
- Quote:
- Name, Title, Company:
- Specific result:

**Testimonial 2:**
- Quote:
- Name, Title, Company:
- Specific result:

**Case Study Preview:**
- Company:
- Result:
- CTA to full case study:

---

## SECTION 7: DIFFERENTIATION

**Headline:**
(Why choose us over alternatives)

**Comparison or unique points:**

---

## SECTION 8: CTA SECTION

**Headline:**
(Final push - urgency or benefit)

**Primary CTA:**

**Friction reducers:**
(Free trial, no credit card, etc.)

---

## SECTION 9: FAQ (Optional)

**Q1:**
**A1:**

**Q2:**
**A2:**

**Q3:**
**A3:**

---

## SECTION 10: FOOTER CTA

**Headline:**

**CTA:**

---

## COPY CHECKLIST

- [ ] Hero passes 5-second test
- [ ] Only ONE primary CTA per section
- [ ] All features translated to benefits
- [ ] Social proof includes names and specifics
- [ ] No jargon or buzzwords
- [ ] Scannable structure

Style: "
    ++ (style)
    ++ "
Messaging: "
    ++ (messaging_framework)

/-- Envelope returned by `create_homepage_wireframe`: the JSON object it serializes, as an ordered key-value list. -/
def create_homepage_wireframe (messaging_framework : String) (style : String) : Env :=
  [("task", Jval.str ("create_homepage_wireframe")),
   ("instructions", Jval.str (create_homepage_wireframe_instructions messaging_framework style)),
   ("messaging_framework", Jval.str messaging_framework),
   ("style", Jval.str style)]

/-- Instructions text of `generate_differentiation_statements` (transcribed verbatim from the source template). -/
def generate_differentiation_statements_instructions (product_description : String) (competitive_alternative : String) (unique_capabilities : List String) (target_audience : Option String) : String :=
  "Generate differentiation statements:

# DIFFERENTIATION STATEMENTS

## \"UNLIKE X, WE Y\" STATEMENTS

**Statement 1 (Primary):**
\"Unlike [alternative], which [problem], [product] [unique approach] so you can [benefit].\"

**Statement 2:**


**Statement 3:**


**Statement 4:**


**Statement 5:**


---

## POSITIONING ANGLES

### Angle 1: Problem-Focused
\"Stop [painful thing]. Start [better outcome].\"

### Angle 2: Audience-Focused
\"The [category] built for [specific audience].\"

### Angle 3: Approach-Focused
\"The only [category] that [unique approach].\"

### Angle 4: Outcome-Focused
\"[Achieve outcome] in [timeframe/easier way].\"

### Angle 5: Anti-Alternative
\"[Alternative] wasn't built for [your use case]. We were.\"

---

## CATEGORY OPTIONS

**Option 1: Existing Category**
\"The [existing category] for [your segment]\"
Example:

**Option 2: New Category**
\"[New category name] - [definition]\"
Example:

**Option 3: Use Case**
\"The best way to [specific job-to-be-done]\"
Example:

---

## HEADLINE OPTIONS

**Clear and Direct:**
1.
2.
3.

**Problem-Agitation:**
1.
2.
3.

**Differentiation-Led:**
1.
2.
3.

---

## VALIDATION QUESTIONS

To test these with customers, ask:
1. \"Does this describe a problem you have?\"
2. \"Does this sound different from [competitor]?\"
3. \"Would this make you want to learn more?\"

Product: "
    ++ (product_description)
    ++ "
Alternative: "
    ++ (competitive_alternative)
    ++ "
Capabilities: "
    ++ (pyStrListRepr unique_capabilities)
    ++ "
"
    ++ (pyCondStr ("Audience: ") target_audience (""))

/-- Envelope returned by `generate_differentiation_statements`: the JSON object it serializes, as an ordered key-value list. -/
def generate_differentiation_statements (product_description : String) (competitive_alternative : String) (unique_capabilities : List String) (target_audience : Option String) : Env :=
  [("task", Jval.str ("generate_differentiation")),
   ("instructions", Jval.str (generate_differentiation_statements_instructions product_description competitive_alternative unique_capabilities target_audience)),
   ("product_description", Jval.str product_description),
   ("competitive_alternative", Jval.str competitive_alternative),
   ("unique_capabilities", Jval.arr unique_capabilities),
   ("target_audience", jopt target_audience)]
/-- Score range constraint `Field(..., ge=0, le=100)` shared by all score fields. -/
def scoreOk (n : Int) : Prop := 0 ≤ n ∧ n ≤ 100

instance (n : Int) : Decidable (scoreOk n) := by unfold scoreOk; infer_instance

/-- Validation of an optional nested record (pydantic skips a `None`). -/
def OptionValid (p : α → Prop) : Option α → Prop
  | some a => p a
  | none => True

instance (p : α → Prop) [DecidablePred p] : (o : Option α) → Decidable (OptionValid p o)
  | some a => inferInstanceAs (Decidable (p a))
  | none => Decidable.isTrue trivial

/-- Severity enum of the data model (IntEnum LOW=1 .. CRITICAL=4). -/
inductive Severity where
  | LOW
  | MEDIUM
  | HIGH
  | CRITICAL
deriving DecidableEq, Repr

/-- Numeric value of a Severity member. -/
def Severity.value : Severity → Int
  | .LOW => 1
  | .MEDIUM => 2
  | .HIGH => 3
  | .CRITICAL => 4

/-- The Severity members in declaration order. -/
def Severity.members : List Severity := [.LOW, .MEDIUM, .HIGH, .CRITICAL]

/-- ScoreLevel enum of the data model (IntEnum FAILING=0 .. EXCELLENT=100). -/
inductive ScoreLevel where
  | FAILING
  | POOR
  | NEEDS_WORK
  | GOOD
  | EXCELLENT
deriving DecidableEq, Repr

/-- Numeric value of a ScoreLevel member. -/
def ScoreLevel.value : ScoreLevel → Int
  | .FAILING => 0
  | .POOR => 25
  | .NEEDS_WORK => 50
  | .GOOD => 75
  | .EXCELLENT => 100

/-- The ScoreLevel members in declaration order. -/
def ScoreLevel.members : List ScoreLevel := [.FAILING, .POOR, .NEEDS_WORK, .GOOD, .EXCELLENT]

/-- CompetitiveAlternative record: pydantic `Literal` fields are embedded as
strings plus a construction-time membership check. -/
structure CompetitiveAlternative where
  alternative_type : String
  name : String
  pain_points : List String
  is_explicit : Bool

/-- The closed set of CompetitiveAlternative.alternative_type (five values). -/
def CompetitiveAlternative.alternativeTypes : List String :=
  ["direct_competitor", "manual_process", "status_quo", "homegrown", "spreadsheets"]

/-- Validation performed when a CompetitiveAlternative is constructed. -/
def CompetitiveAlternative.validProp (x : CompetitiveAlternative) : Prop :=
  x.alternative_type ∈ CompetitiveAlternative.alternativeTypes

instance (x : CompetitiveAlternative) : Decidable (x.validProp) := by
  unfold CompetitiveAlternative.validProp; infer_instance

/-- Pydantic construction: returns the record when validation passes, none on
a validation error. -/
def CompetitiveAlternative.construct (x : CompetitiveAlternative) : Option CompetitiveAlternative :=
  if x.validProp then some x else none

/-- TargetCustomer record. -/
structure TargetCustomer where
  role_title : Option String
  company_type : Option String
  company_size : Option String
  industry : Option String
  situation_trigger : Option String
  specificity_score : Int

/-- Validation performed when a TargetCustomer is constructed. -/
def TargetCustomer.validProp (x : TargetCustomer) : Prop := scoreOk x.specificity_score

instance (x : TargetCustomer) : Decidable (x.validProp) := by
  unfold TargetCustomer.validProp; infer_instance

/-- Pydantic construction for TargetCustomer. -/
def TargetCustomer.construct (x : TargetCustomer) : Option TargetCustomer :=
  if x.validProp then some x else none

/-- Differentiation record (no score fields; construction never fails). -/
structure Differentiation where
  unique_approach : Option String
  key_capability : Option String
  is_defensible : Bool
  is_meaningful : Bool
  could_competitor_say_same : Bool

/-- PositioningStrategy record. -/
structure PositioningStrategy where
  strategy_type : String
  category_or_use_case : Option String
  competitive_frame_score : Int
  target_audience_score : Int
  differentiation_score : Int
  problem_clarity_score : Int

/-- The closed set of PositioningStrategy.strategy_type. -/
def PositioningStrategy.strategyTypes : List String :=
  ["category_based", "use_case_based", "unclear"]

/-- Validation performed when a PositioningStrategy is constructed. -/
def PositioningStrategy.validProp (x : PositioningStrategy) : Prop :=
  x.strategy_type ∈ PositioningStrategy.strategyTypes ∧
  scoreOk x.competitive_frame_score ∧ scoreOk x.target_audience_score ∧
  scoreOk x.differentiation_score ∧ scoreOk x.problem_clarity_score

instance (x : PositioningStrategy) : Decidable (x.validProp) := by
  unfold PositioningStrategy.validProp; infer_instance

/-- Pydantic construction for PositioningStrategy. -/
def PositioningStrategy.construct (x : PositioningStrategy) : Option PositioningStrategy :=
  if x.validProp then some x else none

/-- PositioningAnalysis record (aggregate). -/
structure PositioningAnalysis where
  target_customer : TargetCustomer
  competitive_alternative : Option CompetitiveAlternative
  differentiation : Differentiation
  strategy : PositioningStrategy
  overall_score : Int
  strengths : List String
  weaknesses : List String
  refusing_to_pigeonhole : Bool
  positioning_on_outcomes_only : Bool
  platform_before_point_solution : Bool
  no_competitive_frame : Bool

/-- Validation performed when a PositioningAnalysis is constructed (nested
records are re-validated, as pydantic validates submodels). -/
def PositioningAnalysis.validProp (x : PositioningAnalysis) : Prop :=
  x.target_customer.validProp ∧
  OptionValid CompetitiveAlternative.validProp x.competitive_alternative ∧
  x.strategy.validProp ∧ scoreOk x.overall_score

instance (x : PositioningAnalysis) : Decidable (x.validProp) := by
  unfold PositioningAnalysis.validProp; infer_instance

/-- Pydantic construction for PositioningAnalysis. -/
def PositioningAnalysis.construct (x : PositioningAnalysis) : Option PositioningAnalysis :=
  if x.validProp then some x else none

/-- MessagingLayer record. -/
structure MessagingLayer where
  layer_name : String
  present : Bool
  quality_score : Int
  content_found : Option String
  issues : List String

/-- The five fixed messaging layer names, in declared order. -/
def MessagingLayer.layerNames : List String :=
  ["positioning_statement", "value_proposition", "key_messages", "proof_points", "micro_copy"]

/-- Validation performed when a MessagingLayer is constructed. -/
def MessagingLayer.validProp (x : MessagingLayer) : Prop :=
  x.layer_name ∈ MessagingLayer.layerNames ∧ scoreOk x.quality_score

instance (x : MessagingLayer) : Decidable (x.validProp) := by
  unfold MessagingLayer.validProp; infer_instance

/-- Pydantic construction for MessagingLayer. -/
def MessagingLayer.construct (x : MessagingLayer) : Option MessagingLayer :=
  if x.validProp then some x else none

/-- MessagingHouse record (the dict field is an ordered association list). -/
structure MessagingHouse where
  value_proposition : Option String
  pillars : List String
  proof_points_per_pillar : List (String × List String)
  foundation_defined : Bool
  structure_score : Int

/-- Validation performed when a MessagingHouse is constructed. -/
def MessagingHouse.validProp (x : MessagingHouse) : Prop := scoreOk x.structure_score

instance (x : MessagingHouse) : Decidable (x.validProp) := by
  unfold MessagingHouse.validProp; infer_instance

/-- Pydantic construction for MessagingHouse. -/
def MessagingHouse.construct (x : MessagingHouse) : Option MessagingHouse :=
  if x.validProp then some x else none

/-- MessagingAnalysis record (aggregate). -/
structure MessagingAnalysis where
  layers : List MessagingLayer
  messaging_house : MessagingHouse
  clarity_score : Int
  specificity_score : Int
  benefit_orientation_score : Int
  feature_dumping : Bool
  jargon_buzzwords : List String
  clever_over_clear : Bool
  saying_everything : Bool
  no_specificity : Bool
  overall_score : Int

/-- Validation performed when a MessagingAnalysis is constructed. -/
def MessagingAnalysis.validProp (x : MessagingAnalysis) : Prop :=
  (∀ l ∈ x.layers, l.validProp) ∧ x.messaging_house.validProp ∧
  scoreOk x.clarity_score ∧ scoreOk x.specificity_score ∧
  scoreOk x.benefit_orientation_score ∧ scoreOk x.overall_score

instance (x : MessagingAnalysis) : Decidable (x.validProp) := by
  unfold MessagingAnalysis.validProp; infer_instance

/-- Pydantic construction for MessagingAnalysis. -/
def MessagingAnalysis.construct (x : MessagingAnalysis) : Option MessagingAnalysis :=
  if x.validProp then some x else none

/-- FiveSecondTest record. -/
structure FiveSecondTest where
  what_they_do : String
  who_its_for : String
  whats_different : String
  what_to_do_next : String
  passed : Bool
  notes : String

/-- The tri-state clarity values of the FiveSecondTest fields. -/
def FiveSecondTest.clarityValues : List String := ["clear", "partial", "unclear"]

/-- Validation performed when a FiveSecondTest is constructed. -/
def FiveSecondTest.validProp (x : FiveSecondTest) : Prop :=
  x.what_they_do ∈ FiveSecondTest.clarityValues ∧
  x.who_its_for ∈ FiveSecondTest.clarityValues ∧
  x.whats_different ∈ FiveSecondTest.clarityValues ∧
  x.what_to_do_next ∈ FiveSecondTest.clarityValues

instance (x : FiveSecondTest) : Decidable (x.validProp) := by
  unfold FiveSecondTest.validProp; infer_instance

/-- HeroSection record. -/
structure HeroSection where
  headline : Option String
  subheadline : Option String
  cta_text : Option String
  social_proof_present : Bool
  headline_clarity_score : Int
  cta_clarity_score : Int

/-- Validation performed when a HeroSection is constructed. -/
def HeroSection.validProp (x : HeroSection) : Prop :=
  scoreOk x.headline_clarity_score ∧ scoreOk x.cta_clarity_score

instance (x : HeroSection) : Decidable (x.validProp) := by
  unfold HeroSection.validProp; infer_instance

/-- Pydantic construction for HeroSection. -/
def HeroSection.construct (x : HeroSection) : Option HeroSection :=
  if x.validProp then some x else none

/-- SocialProof record. -/
structure SocialProof where
  logos_present : Bool
  logos_recognizable : Bool
  testimonials_present : Bool
  testimonials_have_names_titles : Bool
  metrics_present : Bool
  specific_results : Bool
  overall_score : Int

/-- Validation performed when a SocialProof is constructed. -/
def SocialProof.validProp (x : SocialProof) : Prop := scoreOk x.overall_score

instance (x : SocialProof) : Decidable (x.validProp) := by
  unfold SocialProof.validProp; infer_instance

/-- Pydantic construction for SocialProof. -/
def SocialProof.construct (x : SocialProof) : Option SocialProof :=
  if x.validProp then some x else none

/-- HomepageAnalysis record (aggregate). -/
structure HomepageAnalysis where
  five_second_test : FiveSecondTest
  hero : HeroSection
  social_proof : SocialProof
  information_hierarchy_score : Int
  scannable : Bool
  cta_count : Int
  primary_cta_clear : Bool
  unclear_hero : Bool
  too_many_ctas : Bool
  missing_social_proof : Bool
  wall_of_text : Bool
  stock_photos : Bool
  overall_score : Int

/-- Validation performed when a HomepageAnalysis is constructed. -/
def HomepageAnalysis.validProp (x : HomepageAnalysis) : Prop :=
  x.five_second_test.validProp ∧ x.hero.validProp ∧ x.social_proof.validProp ∧
  scoreOk x.information_hierarchy_score ∧ scoreOk x.overall_score

instance (x : HomepageAnalysis) : Decidable (x.validProp) := by
  unfold HomepageAnalysis.validProp; infer_instance

/-- Pydantic construction for HomepageAnalysis. -/
def HomepageAnalysis.construct (x : HomepageAnalysis) : Option HomepageAnalysis :=
  if x.validProp then some x else none

/-- PMMIssue record. -/
structure PMMIssue where
  category : String
  severity : Severity
  issue : String
  why_it_matters : String
  recommendation : String
  suggested_rewrite : Option String
  location : Option String

/-- The closed set of PMMIssue.category. -/
def PMMIssue.categories : List String :=
  ["positioning", "messaging", "homepage", "icp", "gtm"]

/-- Validation performed when a PMMIssue is constructed. -/
def PMMIssue.validProp (x : PMMIssue) : Prop := x.category ∈ PMMIssue.categories

instance (x : PMMIssue) : Decidable (x.validProp) := by
  unfold PMMIssue.validProp; infer_instance

/-- PMMEvaluationResult record (top-level aggregate). -/
structure PMMEvaluationResult where
  asset_type : String
  asset_url : Option String
  positioning : PositioningAnalysis
  messaging : MessagingAnalysis
  homepage : Option HomepageAnalysis
  critical_issues : List PMMIssue
  high_priority_issues : List PMMIssue
  medium_issues : List PMMIssue
  low_issues : List PMMIssue
  strengths : List String
  overall_score : Int
  ready_to_ship : Bool
  executive_summary : String
  anti_patterns_detected : List String

/-- The closed set of PMMEvaluationResult.asset_type. -/
def PMMEvaluationResult.assetTypes : List String :=
  ["homepage", "landing_page", "sales_deck", "email", "ad", "other"]

/-- Validation performed when a PMMEvaluationResult is constructed. -/
def PMMEvaluationResult.validProp (x : PMMEvaluationResult) : Prop :=
  x.asset_type ∈ PMMEvaluationResult.assetTypes ∧
  x.positioning.validProp ∧ x.messaging.validProp ∧
  OptionValid HomepageAnalysis.validProp x.homepage ∧
  (∀ i ∈ x.critical_issues, i.validProp) ∧
  (∀ i ∈ x.high_priority_issues, i.validProp) ∧
  (∀ i ∈ x.medium_issues, i.validProp) ∧
  (∀ i ∈ x.low_issues, i.validProp) ∧
  scoreOk x.overall_score

instance (x : PMMEvaluationResult) : Decidable (x.validProp) := by
  unfold PMMEvaluationResult.validProp; infer_instance

/-- Pydantic construction for PMMEvaluationResult. -/
def PMMEvaluationResult.construct (x : PMMEvaluationResult) : Option PMMEvaluationResult :=
  if x.validProp then some x else none

/-- PositioningCanvas record (the creation-side template record). -/
structure PositioningCanvas where
  role_title : String
  company_type : String
  company_size : String
  industry : String
  situation_trigger : String
  primary_alternative : String
  alternative_type : String
  pain_point_1 : String
  pain_point_2 : String
  pain_point_3 : String
  key_differentiator : String
  methodology : String
  unique_capability : String
  primary_benefit : String
  supporting_benefit : String
  proof_point : String
  positioning_approach : String
  category_or_use_case : String
  internal_positioning_statement : String
  differentiation_summary : String
  homepage_one_liner : String
  is_validated : Bool
  validation_notes : Option String

/-- The closed set of PositioningCanvas.alternative_type: four values only
(the source's Literal omits "spreadsheets" here). -/
def PositioningCanvas.alternativeTypes : List String :=
  ["direct_competitor", "manual_process", "status_quo", "homegrown"]

/-- The closed set of PositioningCanvas.positioning_approach. -/
def PositioningCanvas.positioningApproaches : List String :=
  ["category_based", "use_case_based"]

/-- Validation performed when a PositioningCanvas is constructed. -/
def PositioningCanvas.validProp (x : PositioningCanvas) : Prop :=
  x.alternative_type ∈ PositioningCanvas.alternativeTypes ∧
  x.positioning_approach ∈ PositioningCanvas.positioningApproaches

instance (x : PositioningCanvas) : Decidable (x.validProp) := by
  unfold PositioningCanvas.validProp; infer_instance

/-- Pydantic construction for PositioningCanvas. -/
def PositioningCanvas.construct (x : PositioningCanvas) : Option PositioningCanvas :=
  if x.validProp then some x else none

/-- Names of the nine evaluation tools, in registry order (agent.py EVALUATION_TOOLS). -/
def EVALUATION_TOOLS : List String :=
  ["run_five_second_test", "analyze_positioning", "analyze_messaging",
   "analyze_homepage_structure", "detect_anti_patterns", "generate_rewrite",
   "build_competitive_frame", "analyze_icp", "run_complete_pmm_audit"]

/-- Names of the four web tools, in registry order (agent.py WEB_TOOLS). -/
def WEB_TOOLS : List String :=
  ["fetch_homepage", "fetch_competitor_homepage", "analyze_landing_page",
   "scrape_social_proof"]

/-- Names of the four creation tools, in registry order (agent.py CREATION_TOOLS). -/
def CREATION_TOOLS : List String :=
  ["create_positioning_canvas", "create_messaging_framework",
   "create_homepage_wireframe", "generate_differentiation_statements"]

/-- All tools combined (agent.py ALL_TOOLS). -/
def ALL_TOOLS : List String := EVALUATION_TOOLS ++ WEB_TOOLS ++ CREATION_TOOLS

/-- The operating mode Literal of create_pmm_agent. -/
inductive Mode where
  | evaluate
  | create
  | full
deriving DecidableEq, Repr

/-- The mode-based tool selection of create_pmm_agent (agent.py lines 151-157). -/
def selectTools : Mode → List String
  | .evaluate => EVALUATION_TOOLS ++ WEB_TOOLS
  | .create => CREATION_TOOLS
  | .full => ALL_TOOLS

/-- Names of the six specialist subagents, in PMM_SUBAGENTS order. -/
def PMM_SUBAGENTS : List String :=
  ["positioning-analyst", "messaging-analyst", "homepage-analyst",
   "anti-pattern-detector", "icp-analyst", "competitive-analyst"]

/-- The default model name (agent.py DEFAULT_MODEL). -/
def DEFAULT_MODEL : String := "claude-sonnet-4-20250514"

/-- get_model resolves the model name (`model_name or DEFAULT_MODEL`). -/
def get_model (model_name : Option String) : String := pyOrStr model_name DEFAULT_MODEL

/-- The constant human-in-the-loop map passed as `interrupt_on` (agent.py lines 174-178). -/
def interruptOnMap : List (String × Bool) :=
  [("create_positioning_canvas", true),
   ("create_messaging_framework", true),
   ("create_homepage_wireframe", true)]

/-- The arguments create_pmm_agent hands to the external create_deep_agent
constructor.  The system prompt is the constant PMM_EVALUATOR_SYSTEM_PROMPT,
passed through unchanged; its text plays no role in any claim and is not
modelled as a field. -/
structure AgentConfig where
  model : String
  tools : List String
  subagents : List String
  checkpointer : Bool
  interrupt_on : List (String × Bool)
deriving DecidableEq, Repr

/-- The agent factory create_pmm_agent.  `running_in_langgraph_api` is the
module-level environment probe, made explicit as a parameter. -/
def create_pmm_agent (model : Option String) (mode : Mode)
    (use_memory : Bool) (include_subagents : Bool)
    (running_in_langgraph_api : Bool) : AgentConfig :=
  { model := get_model model
    tools := selectTools mode
    subagents := if include_subagents then PMM_SUBAGENTS else []
    checkpointer := use_memory && !running_in_langgraph_api
    interrupt_on := interruptOnMap }
/-- Character-list prefix test used by the substring scanner below. -/
def charsMatch : List Char → List Char → Bool
  | [], _ => true
  | _ :: _, [] => false
  | p :: ps, c :: cs => p == c && charsMatch ps cs

/-- Substring scanner on character lists: does `pat` occur contiguously? -/
def findSub (pat : List Char) : List Char → Bool
  | [] => charsMatch pat []
  | c :: t => charsMatch pat (c :: t) || findSub pat t

/-- Whether `pat` occurs verbatim as a substring of `s`. -/
def strHas (s pat : String) : Bool := findSub pat.data s.data

/-- The basic envelope contract: a non-empty `task` string, a non-empty
`instructions` string, and every name of `ks` present as a top-level key. -/
def envOkP (e : Env) (ks : List String) : Prop :=
  (∃ t, getStr e ("task") = some t ∧ t ≠ "") ∧
  (∃ i, getStr e ("instructions") = some i ∧ i ≠ "") ∧
  ks.all (fun k => hasKey e k) = true

/-- Concrete PositioningStrategy used to instantiate the hypotheses of the
score-range theorem in its witness. -/
def strategyWitnessInput : PositioningStrategy :=
  { strategy_type := "category_based"
    category_or_use_case := none
    competitive_frame_score := 70
    target_audience_score := 55
    differentiation_score := 40
    problem_clarity_score := 85 }

/-- Concrete PositioningCanvas whose alternative_type is "spreadsheets" and
whose every other field satisfies its constraint. -/
def spreadsheetsCanvas : PositioningCanvas :=
  { role_title := "Head of RevOps"
    company_type := "B2B SaaS"
    company_size := "50-200"
    industry := "software"
    situation_trigger := "manual reporting fails"
    primary_alternative := "spreadsheets"
    alternative_type := "spreadsheets"
    pain_point_1 := "error-prone"
    pain_point_2 := "slow"
    pain_point_3 := "no audit trail"
    key_differentiator := "automation"
    methodology := "pipeline sync"
    unique_capability := "real-time rollups"
    primary_benefit := "hours saved"
    supporting_benefit := "fewer errors"
    proof_point := "customer study"
    positioning_approach := "category_based"
    category_or_use_case := "revenue analytics"
    internal_positioning_statement := "For RevOps teams that drown in sheets"
    differentiation_summary := "Unlike spreadsheets, updates are automated"
    homepage_one_liner := "Revenue analytics for RevOps"
    is_validated := false
    validation_notes := none }
theorem charsMatch_append (p r : List Char) : charsMatch p (p ++ r) = true := by
  induction p with
  | nil => rfl
  | cons c cs ih => simp [charsMatch, ih]

theorem findSub_here (pat s : List Char) (h : charsMatch pat s = true) :
    findSub pat s = true := by
  cases s <;> simp [findSub, h]

theorem findSub_append (pat l r : List Char) (h : findSub pat r = true) :
    findSub pat (l ++ r) = true := by
  induction l with
  | nil => simpa using h
  | cons c cs ih => simp [findSub, ih]

theorem findSub_self_append (v r : List Char) : findSub v (v ++ r) = true :=
  findSub_here _ _ (charsMatch_append v r)

theorem findSub_self (v : List Char) : findSub v v = true := by
  have h := findSub_self_append v []
  simpa using h

theorem strHas_empty (s : String) : strHas s "" = true := by
  unfold strHas
  cases h : s.data <;> simp [findSub, charsMatch]

theorem pyCondStr_some (pre v els : String) (hv : v ≠ "") :
    pyCondStr pre (some v) els = pre ++ v := by
  simp [pyCondStr, hv]

theorem pyOrStr_some (v d : String) (hv : v ≠ "") : pyOrStr (some v) d = v := by
  simp [pyOrStr, hv]

theorem append_ne_left (a b : String) (h : a ≠ "") : a ++ b ≠ "" := by
  intro hc
  apply h
  have h2 := congrArg String.data hc
  rw [String.data_append] at h2
  have h3 : a.data = [] := (List.append_eq_nil.mp h2).1
  cases a with
  | mk d => cases h3; rfl

theorem optIf_isSome {α : Type} (p : Prop) [Decidable p] (x : α) :
    (if p then some x else none).isSome = true ↔ p := by
  by_cases h : p <;> simp [h]

theorem envOkP_of (e : Env) (ks : List String) (t i : String)
    (ht : getStr e ("task") = some t) (ht2 : t ≠ "")
    (hi : getStr e ("instructions") = some i) (hi2 : i ≠ "")
    (hk : ks.all (fun k => hasKey e k) = true) : envOkP e ks :=
  ⟨⟨t, ht, ht2⟩, ⟨i, hi, hi2⟩, hk⟩

/-- C4: the mode-based selector maps mode "evaluate" to exactly the nine
evaluation tools plus the four web tools, mode "create" to exactly the four
creation tools and nothing else, and mode "full" to the union of all three
tool groups. -/
theorem c4_mode_selector :
    selectTools Mode.evaluate =
      ["run_five_second_test", "analyze_positioning", "analyze_messaging",
       "analyze_homepage_structure", "detect_anti_patterns", "generate_rewrite",
       "build_competitive_frame", "analyze_icp", "run_complete_pmm_audit",
       "fetch_homepage", "fetch_competitor_homepage", "analyze_landing_page",
       "scrape_social_proof"] ∧
    selectTools Mode.create =
      ["create_positioning_canvas", "create_messaging_framework",
       "create_homepage_wireframe", "generate_differentiation_statements"] ∧
    selectTools Mode.full = EVALUATION_TOOLS ++ WEB_TOOLS ++ CREATION_TOOLS ∧
    EVALUATION_TOOLS.length = 9 ∧ WEB_TOOLS.length = 4 ∧ CREATION_TOOLS.length = 4 := by
  refine ⟨rfl, rfl, rfl, rfl, rfl, rfl⟩

/-- C7: every template operation and the agent factory (tool selection,
subagent selection, checkpointer and interrupt map assembly) are pure
functions of their arguments in this embedding — the source performs no
effectful computation at this layer — so two invocations with identical
arguments produce identical results. -/
theorem c7_determinism :
    (∀ a b, run_five_second_test a b = run_five_second_test a b) ∧
    (∀ a b, analyze_positioning a b = analyze_positioning a b) ∧
    (∀ a b, analyze_messaging a b = analyze_messaging a b) ∧
    (∀ a b, analyze_homepage_structure a b = analyze_homepage_structure a b) ∧
    (∀ a b, detect_anti_patterns a b = detect_anti_patterns a b) ∧
    (∀ a b c d, generate_rewrite a b c d = generate_rewrite a b c d) ∧
    (∀ a b c, build_competitive_frame a b c = build_competitive_frame a b c) ∧
    (∀ a b, analyze_icp a b = analyze_icp a b) ∧
    (∀ a b c d, run_complete_pmm_audit a b c d = run_complete_pmm_audit a b c d) ∧
    (∀ a b, fetch_homepage a b = fetch_homepage a b) ∧
    (∀ a b, fetch_competitor_homepage a b = fetch_competitor_homepage a b) ∧
    (∀ a b, analyze_landing_page a b = analyze_landing_page a b) ∧
    (∀ a, scrape_social_proof a = scrape_social_proof a) ∧
    (∀ a b c d, create_positioning_canvas a b c d = create_positioning_canvas a b c d) ∧
    (∀ a b c, create_messaging_framework a b c = create_messaging_framework a b c) ∧
    (∀ a b, create_homepage_wireframe a b = create_homepage_wireframe a b) ∧
    (∀ a b c d, generate_differentiation_statements a b c d = generate_differentiation_statements a b c d) ∧
    (∀ model mode um inc api, create_pmm_agent model mode um inc api = create_pmm_agent model mode um inc api) :=
  ⟨fun _ _ => rfl, fun _ _ => rfl, fun _ _ => rfl, fun _ _ => rfl, fun _ _ => rfl,
   fun _ _ _ _ => rfl, fun _ _ _ => rfl, fun _ _ => rfl, fun _ _ _ _ => rfl,
   fun _ _ => rfl, fun _ _ => rfl, fun _ _ => rfl, fun _ => rfl,
   fun _ _ _ _ => rfl, fun _ _ _ => rfl, fun _ _ => rfl, fun _ _ _ _ => rfl,
   fun _ _ _ _ _ => rfl⟩

/-- C8: Severity has exactly the four members LOW=1 < MEDIUM=2 < HIGH=3 <
CRITICAL=4 and ScoreLevel exactly the five members FAILING=0 < POOR=25 <
NEEDS_WORK=50 < GOOD=75 < EXCELLENT=100, each totally ordered by numeric
value in declared order. -/
theorem c8_enumerations :
    Severity.members.length = 4 ∧
    (∀ s : Severity, s ∈ Severity.members) ∧
    Severity.members.Nodup ∧
    Severity.members.map Severity.value = [1, 2, 3, 4] ∧
    List.Chain' (fun a b => a < b) (Severity.members.map Severity.value) ∧
    ScoreLevel.members.length = 5 ∧
    (∀ s : ScoreLevel, s ∈ ScoreLevel.members) ∧
    ScoreLevel.members.Nodup ∧
    ScoreLevel.members.map ScoreLevel.value = [0, 25, 50, 75, 100] ∧
    List.Chain' (fun a b => a < b) (ScoreLevel.members.map ScoreLevel.value) := by
  refine ⟨rfl, ?_, by decide, rfl,
    by norm_num [Severity.members, Severity.value, List.chain'_cons],
    rfl, ?_, by decide, rfl,
    by norm_num [ScoreLevel.members, ScoreLevel.value, List.chain'_cons]⟩
  · intro s; cases s <;> decide
  · intro s; cases s <;> decide

/-- C9: invoking the five-second test with asset_content "<h1>Acme</h1>" and
asset_type "homepage" returns an envelope whose asset_type field equals
"homepage" and whose instructions contain the four literal clarity questions. -/
theorem c9_five_second_concrete :
    getStr (run_five_second_test ("<h1>Acme</h1>") ("homepage")) ("asset_type") =
      some ("homepage") ∧
    strHas (getInstr (run_five_second_test ("<h1>Acme</h1>") ("homepage")))
      ("What do they do?") = true ∧
    strHas (getInstr (run_five_second_test ("<h1>Acme</h1>") ("homepage")))
      ("Who is it for?") = true ∧
    strHas (getInstr (run_five_second_test ("<h1>Acme</h1>") ("homepage")))
      ("What makes it different?") = true ∧
    strHas (getInstr (run_five_second_test ("<h1>Acme</h1>") ("homepage")))
      ("What to do next?") = true := by
  refine ⟨rfl, by decide, by decide, by decide, by decide⟩

/-- C10: for every mode and every toggle setting, the agent factory passes the
same human-confirmation map to the external constructor — exactly the three
creation operations create_positioning_canvas, create_messaging_framework and
create_homepage_wireframe are marked True — including in evaluate mode, where
none of those three tools is among the exposed tools. -/
theorem c10_interrupt_map :
    (∀ model mode um inc api,
       (create_pmm_agent model mode um inc api).interrupt_on =
         [("create_positioning_canvas", true),
          ("create_messaging_framework", true),
          ("create_homepage_wireframe", true)]) ∧
    ("create_positioning_canvas" ∉ selectTools Mode.evaluate) ∧
    ("create_messaging_framework" ∉ selectTools Mode.evaluate) ∧
    ("create_homepage_wireframe" ∉ selectTools Mode.evaluate) := by
  refine ⟨fun _ _ _ _ _ => rfl, by decide, by decide, by decide⟩
/-- C1 (counterexample): generate_rewrite, called with its optional
target_persona provided, returns an envelope with no top-level
"target_persona" key (nor a "competitive_alternative" key), so not every
input parameter is echoed as a top-level key by every template operation. -/
theorem c1_counterexample :
    hasKey (generate_rewrite ("copy") ("weak_cta") (some ("PM persona")) (some ("Excel")))
      ("target_persona") = false ∧
    hasKey (generate_rewrite ("copy") ("weak_cta") (some ("PM persona")) (some ("Excel")))
      ("competitive_alternative") = false := by
  refine ⟨rfl, rfl⟩

/-- C1 (amended): every template operation returns an envelope with a
non-empty task string, a non-empty instructions string and an echo of every
input parameter as a top-level key — except generate_rewrite, which echoes
only original_copy and issue_type (its two optional parameters are
interpolated into the instructions, not echoed as keys). -/
theorem c1_envelope_shape :
    (∀ a b, envOkP (run_five_second_test a b) (["asset_content", "asset_type"])) ∧
    (∀ a b, envOkP (analyze_positioning a b) (["asset_content", "company_context"])) ∧
    (∀ a b, envOkP (analyze_messaging a b) (["asset_content", "target_persona"])) ∧
    (∀ a b, envOkP (analyze_homepage_structure a b) (["asset_content", "include_screenshots"])) ∧
    (∀ a b, envOkP (detect_anti_patterns a b) (["asset_content", "asset_type"])) ∧
    (∀ a b c d, envOkP (generate_rewrite a b c d) (["original_copy", "issue_type"]) ∧
       hasKey (generate_rewrite a b c d) ("target_persona") = false ∧
       hasKey (generate_rewrite a b c d) ("competitive_alternative") = false) ∧
    (∀ a b c, envOkP (build_competitive_frame a b c)
       (["product_description", "known_competitors", "current_positioning"])) ∧
    (∀ a b, envOkP (analyze_icp a b) (["asset_content", "additional_context"])) ∧
    (∀ a b c d, envOkP (run_complete_pmm_audit a b c d)
       (["asset_content", "asset_type", "asset_url", "company_context"])) ∧
    (∀ a b, envOkP (fetch_homepage a b) (["url", "extract_mode"])) ∧
    (∀ a b, envOkP (fetch_competitor_homepage a b) (["competitor_url", "your_url"])) ∧
    (∀ a b, envOkP (analyze_landing_page a b) (["url", "campaign_context"])) ∧
    (∀ a, envOkP (scrape_social_proof a) (["url"])) ∧
    (∀ a b c d, envOkP (create_positioning_canvas a b c d)
       (["product_description", "target_audience", "known_competitors", "unique_capabilities"])) ∧
    (∀ a b c, envOkP (create_messaging_framework a b c)
       (["positioning_canvas", "primary_persona", "secondary_personas"])) ∧
    (∀ a b, envOkP (create_homepage_wireframe a b) (["messaging_framework", "style"])) ∧
    (∀ a b c d, envOkP (generate_differentiation_statements a b c d)
       (["product_description", "competitive_alternative", "unique_capabilities", "target_audience"])) := by
  refine ⟨?_, ?_, ?_, ?_, ?_, ?_, ?_, ?_, ?_, ?_, ?_, ?_, ?_, ?_, ?_, ?_, ?_⟩
  · exact fun a b => envOkP_of _ _ _ _ rfl (by decide) rfl (by decide) rfl
  · exact fun a b => envOkP_of _ _ _ _ rfl (by decide) rfl (by decide) rfl
  · exact fun a b => envOkP_of _ _ _ _ rfl (by decide) rfl (by decide) rfl
  · exact fun a b => envOkP_of _ _ _ _ rfl (by decide) rfl (by decide) rfl
  · exact fun a b => envOkP_of _ _ _ _ rfl (by decide) rfl (by decide) rfl
  · refine fun a b c d => ⟨envOkP_of _ _ _ _ rfl (by decide) rfl ?_ rfl, rfl, rfl⟩
    unfold generate_rewrite_instructions
    repeat (apply append_ne_left)
    decide
  · exact fun a b c => envOkP_of _ _ _ _ rfl (by decide) rfl (by decide) rfl
  · exact fun a b => envOkP_of _ _ _ _ rfl (by decide) rfl (by decide) rfl
  · exact fun a b c d => envOkP_of _ _ _ _ rfl (by decide) rfl (by decide) rfl
  · refine fun a b => envOkP_of _ _ _ _ rfl (by decide) rfl ?_ rfl
    unfold fetch_homepage_instructions
    repeat (apply append_ne_left)
    decide
  · refine fun a b => envOkP_of _ _ _ _ rfl (by decide) rfl ?_ rfl
    unfold fetch_competitor_homepage_instructions
    repeat (apply append_ne_left)
    decide
  · refine fun a b => envOkP_of _ _ _ _ rfl (by decide) rfl ?_ rfl
    unfold analyze_landing_page_instructions
    repeat (apply append_ne_left)
    decide
  · refine fun a => envOkP_of _ _ _ _ rfl (by decide) rfl ?_ rfl
    unfold scrape_social_proof_instructions
    repeat (apply append_ne_left)
    decide
  · refine fun a b c d => envOkP_of _ _ _ _ rfl (by decide) rfl ?_ rfl
    unfold create_positioning_canvas_instructions
    repeat (apply append_ne_left)
    decide
  · refine fun a b c => envOkP_of _ _ _ _ rfl (by decide) rfl ?_ rfl
    unfold create_messaging_framework_instructions
    repeat (apply append_ne_left)
    decide
  · refine fun a b => envOkP_of _ _ _ _ rfl (by decide) rfl ?_ rfl
    unfold create_homepage_wireframe_instructions
    repeat (apply append_ne_left)
    decide
  · refine fun a b c d => envOkP_of _ _ _ _ rfl (by decide) rfl ?_ rfl
    unfold generate_differentiation_statements_instructions
    repeat (apply append_ne_left)
    decide

/-- C3 (counterexample): analyze_positioning, given its optional
company_context parameter, does not render that value into the instructions
text (the value is echoed only as a top-level key), so it is not the case
that every provided optional parameter appears verbatim in the instructions
of every template operation. -/
theorem c3_counterexample :
    strHas (getInstr (analyze_positioning ("some asset") (some ("UNIQUE-CONTEXT-TOKEN"))))
      ("UNIQUE-CONTEXT-TOKEN") = false := by
  decide

/-- C3 (amended): for the template operations that interpolate their optional
parameters into the rendered instructions — generate_rewrite, fetch_homepage,
fetch_competitor_homepage, analyze_landing_page, create_positioning_canvas,
create_messaging_framework, create_homepage_wireframe and
generate_differentiation_statements — every provided string-valued optional
parameter appears verbatim as a substring of the instructions.  (The other
operations echo optional parameters only as top-level envelope keys, as the
counterexample shows.) -/
theorem c3_optional_roundtrip :
    (∀ oc it cao v, strHas (getInstr (generate_rewrite oc it (some v) cao)) v = true) ∧
    (∀ oc it tpo v, strHas (getInstr (generate_rewrite oc it tpo (some v))) v = true) ∧
    (∀ url em, strHas (getInstr (fetch_homepage url em)) em = true) ∧
    (∀ cu v, strHas (getInstr (fetch_competitor_homepage cu (some v))) v = true) ∧
    (∀ url v, strHas (getInstr (analyze_landing_page url (some v))) v = true) ∧
    (∀ pd kc ucs v, strHas (getInstr (create_positioning_canvas pd (some v) kc ucs)) v = true) ∧
    (∀ pc sps v, strHas (getInstr (create_messaging_framework pc (some v) sps)) v = true) ∧
    (∀ mf st, strHas (getInstr (create_homepage_wireframe mf st)) st = true) ∧
    (∀ pd ca ucs v, strHas (getInstr (generate_differentiation_statements pd ca ucs (some v))) v = true) := by
  refine ⟨?_, ?_, ?_, ?_, ?_, ?_, ?_, ?_, ?_⟩
  · intro oc it cao v
    by_cases hv : v = ""
    · subst hv; exact strHas_empty _
    · have h1 : getInstr (generate_rewrite oc it (some v) cao) =
          generate_rewrite_instructions oc it (some v) cao := rfl
      rw [h1]
      unfold generate_rewrite_instructions
      rw [pyOrStr_some _ _ hv]
      unfold strHas
      simp only [String.data_append, List.append_assoc]
      repeat (first | exact findSub_self _ | exact findSub_self_append _ _ | apply findSub_append)
  · intro oc it tpo v
    by_cases hv : v = ""
    · subst hv; exact strHas_empty _
    · have h1 : getInstr (generate_rewrite oc it tpo (some v)) =
          generate_rewrite_instructions oc it tpo (some v) := rfl
      rw [h1]
      unfold generate_rewrite_instructions
      rw [pyOrStr_some _ _ hv]
      unfold strHas
      simp only [String.data_append, List.append_assoc]
      repeat (first | exact findSub_self _ | exact findSub_self_append _ _ | apply findSub_append)
  · intro url em
    have h1 : getInstr (fetch_homepage url em) = fetch_homepage_instructions url em := rfl
    rw [h1]
    unfold strHas fetch_homepage_instructions
    simp only [String.data_append, List.append_assoc]
    repeat (first | exact findSub_self _ | exact findSub_self_append _ _ | apply findSub_append)
  · intro cu v
    by_cases hv : v = ""
    · subst hv; exact strHas_empty _
    · have h1 : getInstr (fetch_competitor_homepage cu (some v)) =
          fetch_competitor_homepage_instructions cu (some v) := rfl
      rw [h1]
      unfold fetch_competitor_homepage_instructions
      rw [pyCondStr_some _ _ _ hv]
      unfold strHas
      simp only [String.data_append, List.append_assoc]
      repeat (first | exact findSub_self _ | exact findSub_self_append _ _ | apply findSub_append)
  · intro url v
    by_cases hv : v = ""
    · subst hv; exact strHas_empty _
    · have h1 : getInstr (analyze_landing_page url (some v)) =
          analyze_landing_page_instructions url (some v) := rfl
      rw [h1]
      unfold analyze_landing_page_instructions
      rw [pyCondStr_some _ _ _ hv]
      unfold strHas
      simp only [String.data_append, List.append_assoc]
      repeat (first | exact findSub_self _ | exact findSub_self_append _ _ | apply findSub_append)
  · intro pd kc ucs v
    by_cases hv : v = ""
    · subst hv; exact strHas_empty _
    · have h1 : getInstr (create_positioning_canvas pd (some v) kc ucs) =
          create_positioning_canvas_instructions pd (some v) kc ucs := rfl
      rw [h1]
      unfold create_positioning_canvas_instructions
      rw [pyCondStr_some _ _ _ hv]
      unfold strHas
      simp only [String.data_append, List.append_assoc]
      repeat (first | exact findSub_self _ | exact findSub_self_append _ _ | apply findSub_append)
  · intro pc sps v
    by_cases hv : v = ""
    · subst hv; exact strHas_empty _
    · have h1 : getInstr (create_messaging_framework pc (some v) sps) =
          create_messaging_framework_instructions pc (some v) sps := rfl
      rw [h1]
      unfold create_messaging_framework_instructions
      rw [pyCondStr_some _ _ _ hv]
      unfold strHas
      simp only [String.data_append, List.append_assoc]
      repeat (first | exact findSub_self _ | exact findSub_self_append _ _ | apply findSub_append)
  · intro mf st
    have h1 : getInstr (create_homepage_wireframe mf st) =
        create_homepage_wireframe_instructions mf st := rfl
    rw [h1]
    unfold strHas create_homepage_wireframe_instructions
    simp only [String.data_append, List.append_assoc]
    repeat (first | exact findSub_self _ | exact findSub_self_append _ _ | apply findSub_append)
  · intro pd ca ucs v
    by_cases hv : v = ""
    · subst hv; exact strHas_empty _
    · have h1 : getInstr (generate_differentiation_statements pd ca ucs (some v)) =
          generate_differentiation_statements_instructions pd ca ucs (some v) := rfl
      rw [h1]
      unfold generate_differentiation_statements_instructions
      rw [pyCondStr_some _ _ _ hv]
      unfold strHas
      simp only [String.data_append, List.append_assoc]
      repeat (first | exact findSub_self _ | exact findSub_self_append _ _ | apply findSub_append)
theorem rewrite_instructions_eq_none (it : String)
    (h : it ∉ ["unclear_headline", "jargon_buzzwords", "feature_dump", "no_specificity",
               "clever_over_clear", "weak_cta", "generic_value_prop", "no_competitive_frame"]) :
    rewrite_instructions it = none := by
  simp only [List.mem_cons, List.not_mem_nil, or_false, not_or] at h
  obtain ⟨h1, h2, h3, h4, h5, h6, h7, h8⟩ := h
  simp [rewrite_instructions, h1, h2, h3, h4, h5, h6, h7, h8]

/-- C5: for every issue_type outside the eight enumerated values,
generate_rewrite does not raise — it returns an envelope whose instructions
contain the fallback text "Improve clarity and specificity" — and for each
enumerated issue_type its instructions contain that issue's fix approach. -/
theorem c5_issue_type_fallback :
    (∀ oc tpo cao it,
       it ∉ ["unclear_headline", "jargon_buzzwords", "feature_dump", "no_specificity",
             "clever_over_clear", "weak_cta", "generic_value_prop", "no_competitive_frame"] →
       strHas (getInstr (generate_rewrite oc it tpo cao))
         ("Improve clarity and specificity") = true) ∧
    (∀ oc tpo cao it fix,
       rewrite_instructions it = some fix →
       strHas (getInstr (generate_rewrite oc it tpo cao)) fix = true) := by
  constructor
  · intro oc tpo cao it h
    have hn := rewrite_instructions_eq_none it h
    have h1 : getInstr (generate_rewrite oc it tpo cao) =
        generate_rewrite_instructions oc it tpo cao := rfl
    rw [h1]
    unfold generate_rewrite_instructions
    rw [hn, Option.getD_none]
    unfold strHas
    simp only [String.data_append, List.append_assoc]
    repeat (first | exact findSub_self _ | exact findSub_self_append _ _ | apply findSub_append)
  · intro oc tpo cao it fix hf
    have h1 : getInstr (generate_rewrite oc it tpo cao) =
        generate_rewrite_instructions oc it tpo cao := rfl
    rw [h1]
    unfold generate_rewrite_instructions
    rw [hf, Option.getD_some]
    unfold strHas
    simp only [String.data_append, List.append_assoc]
    repeat (first | exact findSub_self _ | exact findSub_self_append _ _ | apply findSub_append)

/-- Witness for C5: a concrete unknown issue_type falls back to the default
text, and a concrete enumerated issue_type renders its own fix approach. -/
theorem c5_issue_type_fallback_witness :
    (("totally_bogus" : String) ∉
       ["unclear_headline", "jargon_buzzwords", "feature_dump", "no_specificity",
        "clever_over_clear", "weak_cta", "generic_value_prop", "no_competitive_frame"] ∧
     strHas (getInstr (generate_rewrite ("my copy") ("totally_bogus") none none))
       ("Improve clarity and specificity") = true) ∧
    (rewrite_instructions ("feature_dump") =
       some ("Apply 'So what?' to each feature until you reach benefit.") ∧
     strHas (getInstr (generate_rewrite ("my copy") ("feature_dump") none none))
       ("Apply 'So what?' to each feature until you reach benefit.") = true) :=
  ⟨⟨by decide,
    c5_issue_type_fallback.1 ("my copy") none none ("totally_bogus") (by decide)⟩,
   ⟨rfl,
    c5_issue_type_fallback.2 ("my copy") none none ("feature_dump")
      ("Apply 'So what?' to each feature until you reach benefit.") rfl⟩⟩
/-- C2: for every record with a claimed score field — TargetCustomer's
specificity score, PositioningStrategy's four sub-scores, the quality,
structure, clarity, specificity and benefit-orientation scores, the headline
and CTA clarity scores, and every overall_score — construction succeeds when
the value is an integer in [0,100] and fails with a validation error
otherwise (the other construction-time constraints being satisfied). -/
theorem c2_score_ranges :
    (∀ x : TargetCustomer,
       (TargetCustomer.construct x).isSome = true ↔ scoreOk x.specificity_score) ∧
    (∀ x : PositioningStrategy,
       x.strategy_type ∈ PositioningStrategy.strategyTypes →
       ((PositioningStrategy.construct x).isSome = true ↔
         (scoreOk x.competitive_frame_score ∧ scoreOk x.target_audience_score ∧
          scoreOk x.differentiation_score ∧ scoreOk x.problem_clarity_score))) ∧
    (∀ x : MessagingLayer,
       x.layer_name ∈ MessagingLayer.layerNames →
       ((MessagingLayer.construct x).isSome = true ↔ scoreOk x.quality_score)) ∧
    (∀ x : MessagingHouse,
       (MessagingHouse.construct x).isSome = true ↔ scoreOk x.structure_score) ∧
    (∀ x : MessagingAnalysis,
       (∀ l ∈ x.layers, l.validProp) → x.messaging_house.validProp →
       ((MessagingAnalysis.construct x).isSome = true ↔
         (scoreOk x.clarity_score ∧ scoreOk x.specificity_score ∧
          scoreOk x.benefit_orientation_score ∧ scoreOk x.overall_score))) ∧
    (∀ x : HeroSection,
       (HeroSection.construct x).isSome = true ↔
         (scoreOk x.headline_clarity_score ∧ scoreOk x.cta_clarity_score)) ∧
    (∀ x : SocialProof,
       (SocialProof.construct x).isSome = true ↔ scoreOk x.overall_score) ∧
    (∀ x : PositioningAnalysis,
       x.target_customer.validProp →
       OptionValid CompetitiveAlternative.validProp x.competitive_alternative →
       x.strategy.validProp →
       ((PositioningAnalysis.construct x).isSome = true ↔ scoreOk x.overall_score)) ∧
    (∀ x : HomepageAnalysis,
       x.five_second_test.validProp → x.hero.validProp → x.social_proof.validProp →
       scoreOk x.information_hierarchy_score →
       ((HomepageAnalysis.construct x).isSome = true ↔ scoreOk x.overall_score)) ∧
    (∀ x : PMMEvaluationResult,
       x.asset_type ∈ PMMEvaluationResult.assetTypes →
       x.positioning.validProp → x.messaging.validProp →
       OptionValid HomepageAnalysis.validProp x.homepage →
       (∀ i ∈ x.critical_issues, i.validProp) →
       (∀ i ∈ x.high_priority_issues, i.validProp) →
       (∀ i ∈ x.medium_issues, i.validProp) →
       (∀ i ∈ x.low_issues, i.validProp) →
       ((PMMEvaluationResult.construct x).isSome = true ↔ scoreOk x.overall_score)) := by
  refine ⟨?_, ?_, ?_, ?_, ?_, ?_, ?_, ?_, ?_, ?_⟩
  · intro x
    unfold TargetCustomer.construct
    rw [optIf_isSome]
    exact Iff.rfl
  · intro x hmem
    unfold PositioningStrategy.construct
    rw [optIf_isSome]
    unfold PositioningStrategy.validProp
    exact ⟨fun hv => hv.2, fun hs => ⟨hmem, hs⟩⟩
  · intro x hmem
    unfold MessagingLayer.construct
    rw [optIf_isSome]
    unfold MessagingLayer.validProp
    exact ⟨fun hv => hv.2, fun hs => ⟨hmem, hs⟩⟩
  · intro x
    unfold MessagingHouse.construct
    rw [optIf_isSome]
    exact Iff.rfl
  · intro x hl hh
    unfold MessagingAnalysis.construct
    rw [optIf_isSome]
    unfold MessagingAnalysis.validProp
    exact ⟨fun hv => hv.2.2, fun hs => ⟨hl, hh, hs⟩⟩
  · intro x
    unfold HeroSection.construct
    rw [optIf_isSome]
    exact Iff.rfl
  · intro x
    unfold SocialProof.construct
    rw [optIf_isSome]
    exact Iff.rfl
  · intro x htc hca hst
    unfold PositioningAnalysis.construct
    rw [optIf_isSome]
    unfold PositioningAnalysis.validProp
    exact ⟨fun hv => hv.2.2.2, fun hs => ⟨htc, hca, hst, hs⟩⟩
  · intro x hf hh hs hi
    unfold HomepageAnalysis.construct
    rw [optIf_isSome]
    unfold HomepageAnalysis.validProp
    exact ⟨fun hv => hv.2.2.2.2, fun ho => ⟨hf, hh, hs, hi, ho⟩⟩
  · intro x ha hp hm hh hc h2 h3 h4
    unfold PMMEvaluationResult.construct
    rw [optIf_isSome]
    unfold PMMEvaluationResult.validProp
    exact ⟨fun hv => hv.2.2.2.2.2.2.2.2,
           fun ho => ⟨ha, hp, hm, hh, hc, h2, h3, h4, ho⟩⟩

/-- Witness for C2: the PositioningStrategy conjunct applied at a concrete
in-range record, its hypothesis discharged by evaluation. -/
theorem c2_score_ranges_witness :
    strategyWitnessInput.strategy_type ∈ PositioningStrategy.strategyTypes ∧
    ((PositioningStrategy.construct strategyWitnessInput).isSome = true ↔
      (scoreOk strategyWitnessInput.competitive_frame_score ∧
       scoreOk strategyWitnessInput.target_audience_score ∧
       scoreOk strategyWitnessInput.differentiation_score ∧
       scoreOk strategyWitnessInput.problem_clarity_score)) :=
  ⟨by decide, c2_score_ranges.2.1 strategyWitnessInput (by decide)⟩

/-- C6 (counterexample): "spreadsheets" is one of the five claimed
alternative_type values, yet constructing a PositioningCanvas with it fails —
the canvas's Literal admits only four values. -/
theorem c6_counterexample :
    spreadsheetsCanvas.alternative_type = "spreadsheets" ∧
    spreadsheetsCanvas.alternative_type ∈ CompetitiveAlternative.alternativeTypes ∧
    (PositioningCanvas.construct spreadsheetsCanvas).isSome = false := by
  refine ⟨rfl, by decide, by decide⟩

/-- C6 (amended): CompetitiveAlternative.alternative_type accepts exactly the
five values direct_competitor, manual_process, status_quo, homegrown and
spreadsheets, while PositioningCanvas.alternative_type accepts exactly the
four values without spreadsheets; each rejects anything outside its set at
construction. -/
theorem c6_alternative_type :
    (∀ x : CompetitiveAlternative,
       (CompetitiveAlternative.construct x).isSome = true ↔
         x.alternative_type ∈ ["direct_competitor", "manual_process", "status_quo",
                               "homegrown", "spreadsheets"]) ∧
    (∀ x : PositioningCanvas,
       x.positioning_approach ∈ PositioningCanvas.positioningApproaches →
       ((PositioningCanvas.construct x).isSome = true ↔
         x.alternative_type ∈ ["direct_competitor", "manual_process", "status_quo",
                               "homegrown"])) := by
  constructor
  · intro x
    unfold CompetitiveAlternative.construct
    rw [optIf_isSome]
    exact Iff.rfl
  · intro x hpa
    unfold PositioningCanvas.construct
    rw [optIf_isSome]
    unfold PositioningCanvas.validProp
    exact ⟨fun hv => hv.1, fun hm => ⟨hm, hpa⟩⟩

/-- Witness for C6: the PositioningCanvas conjunct applied at the concrete
spreadsheets canvas, its hypothesis discharged by evaluation. -/
theorem c6_alternative_type_witness :
    spreadsheetsCanvas.positioning_approach ∈ PositioningCanvas.positioningApproaches ∧
    ((PositioningCanvas.construct spreadsheetsCanvas).isSome = true ↔
      spreadsheetsCanvas.alternative_type ∈
        ["direct_competitor", "manual_process", "status_quo", "homegrown"]) :=
  ⟨by decide, c6_alternative_type.2 spreadsheetsCanvas (by decide)⟩
